import Mathlib

/-!
Shallow embedding of the compatibility/matching engine of
`backend/app/services/matching_service.py` (class `MatchingEngine`), together
with theorems about the specified behaviour of that engine.

Modelling conventions:
* Python floats are modelled as exact rationals (`ℚ`).
* Python dictionaries with `.get(key, default)` access are modelled as
  `Option`-valued lookups plus `Option.getD`.
* Python `round(x, 1)` (round-half-to-even at one decimal) is modelled exactly
  by `round1` below; Python `int(x)` (truncation toward zero) by `pyInt`.
* Python truthiness of an optional float (`None` and `0.0` are both falsy) is
  modelled by `pyTruthy`.
* Timestamps are rationals measured in seconds, so `total_seconds() / 60`
  becomes division by 60; `datetime.utcnow()` is an explicit `now` argument.
* The GPS distance routine `_haversine_distance` is transcendental
  (sine/cosine/arctangent), so `calculate_proximity_overlap` takes the
  distance function as an explicit parameter `dist`; the real-valued
  haversine formula itself is transcribed as `haversine_distance` below.
-/

namespace MatchingEngine

/-- Python truthiness of an optional float: `None` is falsy and so is `0.0`;
any other float is truthy.  This is what `checkin.get('latitude')` evaluates
to inside `all([...])` in `calculate_proximity_overlap`. -/
def pyTruthy (o : Option ℚ) : Bool :=
  match o with
  | none => false
  | some x => decide (x ≠ 0)

/-- Python `int(x)`: truncation toward zero. -/
def pyInt (x : ℚ) : ℤ :=
  if x < 0 then ⌈x⌉ else ⌊x⌋

/-- Round a rational to the nearest integer, ties to even: the rounding mode
of Python `round`. -/
def roundHE (y : ℚ) : ℤ :=
  let f := ⌊y⌋
  let r := y - f
  if r < 1/2 then f
  else if 1/2 < r then f + 1
  else if f % 2 = 0 then f else f + 1

/-- Model of Python `round(x, 1)`: round to one decimal place, ties to
even. -/
def round1 (x : ℚ) : ℚ :=
  (roundHE (10 * x) : ℚ) / 10

/-- A user profile as consumed by the engine: the `dimensions` dictionary
(a required key in the source, arbitrary string keys inside, rational values)
and the optional `intentions` collection (read with `.get('intentions', [])`
and converted to a set). -/
structure Profile where
  dimensions : String → Option ℚ
  intentions : Option (Finset String)

/-- Model of the lookup `profile['dimensions'].get(dimension, 50)`. -/
def getDim (p : Profile) (k : String) : ℚ :=
  (p.dimensions k).getD 50

/-- Model of `set(profile.get('intentions', []))`. -/
def getIntentions (p : Profile) : Finset String :=
  p.intentions.getD ∅

/-- The class constant `MatchingEngine.DIMENSION_WEIGHTS`, in its insertion
order. -/
def DIMENSION_WEIGHTS : List (String × ℚ) :=
  [("goals", 25/100), ("intuition", 15/100), ("philosophy", 20/100),
   ("expectations", 25/100), ("leisure_time", 15/100)]

/-- The per-dimension similarity computed in the scoring loop:
`100 - abs(value_a - value_b)` with missing values defaulting to 50. -/
def similarity (a b : Profile) (k : String) : ℚ :=
  100 - |getDim a k - getDim b k|

/-- The `dimension_scores` dictionary built by the scoring loop, modelled as
an association list in the insertion order of the Python loop. -/
def dimension_scores (a b : Profile) : List (String × ℚ) :=
  DIMENSION_WEIGHTS.map (fun dw => (dw.1, round1 (similarity a b dw.1)))

/-- The accumulator `total_weighted_score` of the scoring loop:
`similarity * weight` summed over `DIMENSION_WEIGHTS`. -/
def total_weighted_score (a b : Profile) : ℚ :=
  (DIMENSION_WEIGHTS.map (fun dw => similarity a b dw.1 * dw.2)).sum

/-- The `intention_overlap` value: Jaccard ratio of the two intention sets
when both are non-empty, else the neutral 0.5. -/
def intention_overlap (a b : Profile) : ℚ :=
  if getIntentions a ≠ ∅ ∧ getIntentions b ≠ ∅ then
    ((getIntentions a ∩ getIntentions b).card : ℚ) /
      ((getIntentions a ∪ getIntentions b).card : ℚ)
  else 1/2

/-- The `intention_multiplier`: `0.8 + intention_overlap * 0.4`. -/
def intention_multiplier (a b : Profile) : ℚ :=
  8/10 + intention_overlap a b * (4/10)

/-- The `proximity_bonus`: `min(20, proximity_minutes / 3)`. -/
def proximity_bonus (proximity_minutes : ℤ) : ℚ :=
  min 20 ((proximity_minutes : ℚ) / 3)

/-- Model of `MatchingEngine.calculate_compatibility`: returns the pair
`(compatibility_score, dimension_scores)` of the source, with the final score
clamped to `[0, 100]` and rounded to one decimal. -/
def calculate_compatibility (user_a_profile user_b_profile : Profile)
    (proximity_minutes : ℤ) : ℚ × List (String × ℚ) :=
  let compatibility_score :=
    total_weighted_score user_a_profile user_b_profile *
      intention_multiplier user_a_profile user_b_profile +
      proximity_bonus proximity_minutes
  (round1 (min 100 (max 0 compatibility_score)),
   dimension_scores user_a_profile user_b_profile)

/-- Modelled from the claim text (not the source): the compatibility score as
the specification words it, with the five weighted terms written out
explicitly.  Compared against `calculate_compatibility` in the refinement
theorem for the scoring algorithm. -/
def spec_compatibility_score (a b : Profile) (p : ℤ) : ℚ :=
  let s := fun k : String => 100 - |(a.dimensions k).getD 50 - (b.dimensions k).getD 50|
  let base := (25/100) * s "goals" + (15/100) * s "intuition" +
    (20/100) * s "philosophy" + (25/100) * s "expectations" +
    (15/100) * s "leisure_time"
  let ratio :=
    if getIntentions a ≠ ∅ ∧ getIntentions b ≠ ∅ then
      ((getIntentions a ∩ getIntentions b).card : ℚ) /
        ((getIntentions a ∪ getIntentions b).card : ℚ)
    else 1/2
  let mult := 8/10 + (4/10) * ratio
  let bonus := min 20 ((p : ℚ) / 3)
  round1 (min 100 (max 0 (base * mult + bonus)))

/-- Modelled from the claim text (not the source): the per-dimension
alignment map as the specification words it, one rounded similarity per fixed
dimension. -/
def spec_dimension_alignment (a b : Profile) : List (String × ℚ) :=
  let s := fun k : String => 100 - |(a.dimensions k).getD 50 - (b.dimensions k).getD 50|
  [("goals", round1 (s "goals")), ("intuition", round1 (s "intuition")),
   ("philosophy", round1 (s "philosophy")),
   ("expectations", round1 (s "expectations")),
   ("leisure_time", round1 (s "leisure_time"))]

/-- A profile in which every consulted value is already the documented
default-substituted one: each dimension explicitly present (missing values
replaced by the 50.0 midpoint) and the intention set explicitly present
(missing collection replaced by the empty set). -/
def withDefaults (p : Profile) : Profile :=
  ⟨fun k => some (getDim p k), some (getIntentions p)⟩

/-- A profile whose explicitly present dimension values all lie in the
documented `[0, 100]` range. -/
def ValidProfile (p : Profile) : Prop :=
  ∀ k v, p.dimensions k = some v → 0 ≤ v ∧ v ≤ 100

/-- A candidate entry of the `other_users` list in `find_matches_for_event`:
its identity fields plus its profile data (the same dictionary carries both
in the source). -/
structure OtherUser where
  id : ℤ
  username : Option String
  wallet_address : String
  dimensions : String → Option ℚ
  intentions : Option (Finset String)

/-- The profile part of a candidate dictionary. -/
def OtherUser.profile (o : OtherUser) : Profile :=
  ⟨o.dimensions, o.intentions⟩

/-- One entry of the list returned by `find_matches_for_event`. -/
structure MatchResult where
  user_id : ℤ
  username : String
  wallet_address : String
  compatibility_score : ℚ
  dimension_alignment : List (String × ℚ)
  proximity_overlap_minutes : ℤ
  shared_intentions : Finset String
deriving DecidableEq

/-- The match dictionary built for one candidate inside the loop of
`find_matches_for_event`. -/
def scoreCandidate (user_profile : Profile) (proximity_data : ℤ → Option ℤ)
    (o : OtherUser) : MatchResult :=
  let proximity_minutes := (proximity_data o.id).getD 0
  let r := calculate_compatibility user_profile o.profile proximity_minutes
  { user_id := o.id
    username := o.username.getD "Anonymous"
    wallet_address := o.wallet_address
    compatibility_score := r.1
    dimension_alignment := r.2
    proximity_overlap_minutes := proximity_minutes
    shared_intentions := getIntentions user_profile ∩ getIntentions o.profile }

/-- The comparison passed to the sort: `reverse=True` on the score key, i.e.
a stable sort that puts higher scores first. -/
def byScoreDesc (x y : MatchResult) : Bool :=
  decide (y.compatibility_score ≤ x.compatibility_score)

/-- Python list slicing `l[:n]` for an integer `n`: a nonnegative `n` keeps
the first `n` elements, a negative `n` drops the last `|n|` elements. -/
def pySlice {α : Type} (l : List α) (n : ℤ) : List α :=
  if 0 ≤ n then l.take n.toNat else l.take (l.length - (-n).toNat)

/-- Every candidate scored, then stably sorted by compatibility score
descending: the state of `matches` in `find_matches_for_event` just before
the truncation. -/
def rankAll (user_profile : Profile) (other_users : List OtherUser)
    (proximity_data : ℤ → Option ℤ) : List MatchResult :=
  (other_users.map (scoreCandidate user_profile proximity_data)).mergeSort byScoreDesc

/-- Model of `MatchingEngine.find_matches_for_event`: score all candidates,
sort by compatibility descending (Python `list.sort` is stable), return
`matches[:top_n]`. -/
def find_matches_for_event (user_profile : Profile)
    (other_users : List OtherUser) (proximity_data : ℤ → Option ℤ)
    (top_n : ℤ) : List MatchResult :=
  pySlice (rankAll user_profile other_users proximity_data) top_n

/-- A check-in dictionary as read by `calculate_proximity_overlap`:
`check_in_time` is a required key; `check_out_time`, `latitude` and
`longitude` are read optionally. -/
structure Checkin where
  check_in_time : ℚ
  check_out_time : Option ℚ
  latitude : Option ℚ
  longitude : Option ℚ

/-- Model of `checkin.get('check_out_time') or datetime.utcnow()`: a missing
(or null) check-out time resolves to the current instant, passed explicitly
as `now`. -/
def effectiveEnd (c : Checkin) (now : ℚ) : ℚ :=
  c.check_out_time.getD now

/-- A coordinate that Python truthiness treats as absent: the key is missing
(`None`) or its value is exactly `0.0`. -/
def coordMissingOrZero (o : Option ℚ) : Prop :=
  o = none ∨ o = some 0

/-- Model of `MatchingEngine.calculate_proximity_overlap`.  Timestamps are in
seconds; `dist` stands for the method `_haversine_distance` (its
transcendental formula is transcribed separately as `haversine_distance`).
Note the GPS gate uses Python truthiness of the four coordinates, so a
coordinate that is absent OR exactly `0.0` disables the gate. -/
def calculate_proximity_overlap (dist : ℚ → ℚ → ℚ → ℚ → ℚ)
    (checkin_a checkin_b : Checkin) (max_distance_meters : ℚ) (now : ℚ) : ℤ :=
  let start_a := checkin_a.check_in_time
  let end_a := effectiveEnd checkin_a now
  let start_b := checkin_b.check_in_time
  let end_b := effectiveEnd checkin_b now
  let overlap_start := max start_a start_b
  let overlap_end := min end_a end_b
  if overlap_end ≤ overlap_start then 0
  else
    let time_overlap := (overlap_end - overlap_start) / 60
    if pyTruthy checkin_a.latitude && pyTruthy checkin_a.longitude &&
       pyTruthy checkin_b.latitude && pyTruthy checkin_b.longitude then
      let d := dist (checkin_a.latitude.getD 0) (checkin_a.longitude.getD 0)
                    (checkin_b.latitude.getD 0) (checkin_b.longitude.getD 0)
      if max_distance_meters < d then 0 else pyInt time_overlap
    else pyInt time_overlap

/-- Model of `np.arctan2 y x` for real arguments. -/
noncomputable def arctan2 (y x : ℝ) : ℝ :=
  if 0 < x then Real.arctan (y / x)
  else if x = 0 then
    if 0 < y then Real.pi / 2 else if y < 0 then -(Real.pi / 2) else 0
  else
    if 0 ≤ y then Real.arctan (y / x) + Real.pi else Real.arctan (y / x) - Real.pi

/-- Model of `MatchingEngine._haversine_distance`: great-circle distance in
meters with Earth radius 6,371,000 m.  Transcendental, hence real-valued and
not executable; `calculate_proximity_overlap` abstracts it as its `dist`
parameter. -/
noncomputable def haversine_distance (lat1 lon1 lat2 lon2 : ℝ) : ℝ :=
  let R : ℝ := 6371000
  let phi1 := lat1 * Real.pi / 180
  let phi2 := lat2 * Real.pi / 180
  let delta_phi := (lat2 - lat1) * Real.pi / 180
  let delta_lambda := (lon2 - lon1) * Real.pi / 180
  let a := Real.sin (delta_phi / 2) ^ 2 +
    Real.cos phi1 * Real.cos phi2 * Real.sin (delta_lambda / 2) ^ 2
  let c := 2 * arctan2 (Real.sqrt a) (Real.sqrt (1 - a))
  R * c

end MatchingEngine

namespace MatchingEngine

/-! Rounding and truncation helper lemmas. -/

lemma roundHE_le (y : ℚ) : (roundHE y : ℚ) ≤ y + 1/2 := by
  unfold roundHE
  dsimp only
  have h1 : (⌊y⌋ : ℚ) ≤ y := Int.floor_le y
  have h2 : y < (⌊y⌋ : ℚ) + 1 := Int.lt_floor_add_one y
  split_ifs with c1 c2 c3 <;> push_cast <;> linarith

lemma le_roundHE (y : ℚ) : y - 1/2 ≤ (roundHE y : ℚ) := by
  unfold roundHE
  dsimp only
  have h1 : (⌊y⌋ : ℚ) ≤ y := Int.floor_le y
  have h2 : y < (⌊y⌋ : ℚ) + 1 := Int.lt_floor_add_one y
  split_ifs with c1 c2 c3 <;> push_cast <;> linarith

lemma roundHE_le_int {y : ℚ} {m : ℤ} (h : y ≤ (m : ℚ)) : roundHE y ≤ m := by
  have h1 := roundHE_le y
  have h2 : (roundHE y : ℚ) < (m : ℚ) + 1 := by linarith
  exact_mod_cast Int.lt_add_one_iff.mp (by exact_mod_cast h2)

lemma int_le_roundHE {y : ℚ} {m : ℤ} (h : (m : ℚ) ≤ y) : m ≤ roundHE y := by
  have h1 := le_roundHE y
  have h2 : (m : ℚ) - 1 < (roundHE y : ℚ) := by linarith
  have h3 : m - 1 < roundHE y := by exact_mod_cast h2
  omega

lemma round1_nonneg {x : ℚ} (h : 0 ≤ x) : 0 ≤ round1 x := by
  unfold round1
  have h1 : (0 : ℤ) ≤ roundHE (10 * x) := int_le_roundHE (by push_cast; linarith)
  have h2 : (0 : ℚ) ≤ (roundHE (10 * x) : ℚ) := by exact_mod_cast h1
  linarith

lemma round1_le_100 {x : ℚ} (h : x ≤ 100) : round1 x ≤ 100 := by
  unfold round1
  have h1 : roundHE (10 * x) ≤ (1000 : ℤ) := roundHE_le_int (by push_cast; linarith)
  have h2 : (roundHE (10 * x) : ℚ) ≤ (1000 : ℚ) := by exact_mod_cast h1
  linarith

lemma round1_close (x : ℚ) : x - 1/20 ≤ round1 x ∧ round1 x ≤ x + 1/20 := by
  unfold round1
  have h1 := roundHE_le (10 * x)
  have h2 := le_roundHE (10 * x)
  constructor <;> linarith

lemma round1_int (m : ℤ) : round1 (m : ℚ) = m := by
  unfold round1 roundHE
  dsimp only
  rw [show (10 : ℚ) * m = ((10 * m : ℤ) : ℚ) by push_cast; ring, Int.floor_intCast]
  rw [if_pos (by norm_num : ((10 * m : ℤ) : ℚ) - ((10 * m : ℤ) : ℚ) < 1/2)]
  push_cast
  ring

lemma pyInt_nonneg {x : ℚ} (h : 0 ≤ x) : 0 ≤ pyInt x := by
  unfold pyInt
  rw [if_neg (not_lt.mpr h)]
  exact Int.floor_nonneg.mpr h

/-! Symmetry of the scoring components in the two profile arguments. -/

lemma similarity_comm (a b : Profile) (k : String) : similarity a b k = similarity b a k := by
  unfold similarity
  rw [abs_sub_comm]

lemma intention_overlap_comm (a b : Profile) : intention_overlap a b = intention_overlap b a := by
  unfold intention_overlap
  by_cases h1 : getIntentions a = ∅ <;> by_cases h2 : getIntentions b = ∅ <;>
    simp [h1, h2, Finset.inter_comm, Finset.union_comm]

lemma intention_multiplier_comm (a b : Profile) :
    intention_multiplier a b = intention_multiplier b a := by
  unfold intention_multiplier
  rw [intention_overlap_comm]

lemma dimension_scores_comm (a b : Profile) : dimension_scores a b = dimension_scores b a := by
  unfold dimension_scores
  simp only [similarity_comm a b]

lemma total_weighted_score_comm (a b : Profile) :
    total_weighted_score a b = total_weighted_score b a := by
  unfold total_weighted_score
  simp only [similarity_comm a b]

/-- C1: for every pair of profiles and every proximity value,
`calculate_compatibility` computes exactly the specified algorithm — per
dimension `similarity = 100 - abs(value_a - value_b)` with missing values
defaulting to 50, base score the weighted sum with weights goals 0.25,
intuition 0.15, philosophy 0.20, expectations 0.25, leisure_time 0.15,
intention multiplier `0.8 + 0.4 * overlap` with Jaccard overlap (0.5 when
either set is empty), proximity bonus `min(20, p / 3)`, and final score
`clamp(base * multiplier + bonus, 0, 100)` rounded to one decimal — and the
reported alignment map is the rounded per-dimension similarities. -/
theorem claim_C1 : ∀ a b p,
    (calculate_compatibility a b p).1 = spec_compatibility_score a b p
    ∧ (calculate_compatibility a b p).2 = spec_dimension_alignment a b := by
  intro a b p
  constructor
  · unfold calculate_compatibility spec_compatibility_score total_weighted_score
      intention_multiplier intention_overlap proximity_bonus similarity getDim
      dimension_scores DIMENSION_WEIGHTS
    dsimp only
    simp only [List.map_cons, List.map_nil, List.sum_cons, List.sum_nil]
    congr 1
    congr 1
    congr 1
    ring
  · unfold calculate_compatibility dimension_scores spec_dimension_alignment similarity getDim
      DIMENSION_WEIGHTS
    dsimp only
    simp only [List.map_cons, List.map_nil]

/-- C2: for every input (including out-of-range dimension values) the
compatibility score lies in `[0, 100]`; the dimension alignment map has
exactly the 5 fixed keys in order; and `calculate_proximity_overlap` never
returns a negative value. -/
theorem claim_C2 :
    (∀ a b p, 0 ≤ (calculate_compatibility a b p).1 ∧ (calculate_compatibility a b p).1 ≤ 100)
    ∧ (∀ a b p, ((calculate_compatibility a b p).2).map Prod.fst =
        ["goals", "intuition", "philosophy", "expectations", "leisure_time"])
    ∧ (∀ dist a b m now, 0 ≤ calculate_proximity_overlap dist a b m now) := by
  refine ⟨fun a b p => ?_, fun a b p => rfl, fun dist a b m now => ?_⟩
  · unfold calculate_compatibility
    dsimp only
    exact ⟨round1_nonneg (le_min (by norm_num) (le_max_left _ _)),
      round1_le_100 (min_le_left _ _)⟩
  · unfold calculate_proximity_overlap
    dsimp only
    split_ifs with h1 h2 h3
    · exact le_refl 0
    · exact le_refl 0
    · exact pyInt_nonneg (div_nonneg (by linarith [lt_of_not_le h1]) (by norm_num))
    · exact pyInt_nonneg (div_nonneg (by linarith [lt_of_not_le h1]) (by norm_num))

/-- C4: `calculate_compatibility` is symmetric in its two profile arguments,
in both the compatibility score and the dimension alignment map. -/
theorem claim_C4 : ∀ a b p, calculate_compatibility a b p = calculate_compatibility b a p := by
  intro a b p
  unfold calculate_compatibility
  rw [total_weighted_score_comm, intention_multiplier_comm, dimension_scores_comm]

/-- C6: the scorer is total over missing data — replacing every missing
dimension value by the documented 50.0 midpoint and a missing intention
collection by the empty set changes nothing (so the defaults are exactly what
the scorer substitutes, and no failure path exists), and two profiles with no
data at all still produce the normal score 100. -/
theorem claim_C6 : ∀ a b p,
    calculate_compatibility a b p =
      calculate_compatibility (withDefaults a) (withDefaults b) p
    ∧ (calculate_compatibility ⟨fun _ => none, none⟩ ⟨fun _ => none, none⟩ 0).1 = 100 := by
  intro a b p
  refine ⟨rfl, ?_⟩
  norm_num [calculate_compatibility, total_weighted_score, DIMENSION_WEIGHTS, similarity,
    getDim, getIntentions, intention_overlap, intention_multiplier, proximity_bonus,
    dimension_scores, round1, roundHE, min_def, max_def]

/-! Ranking: comparison properties and the sorted list of scored candidates. -/

lemma byScoreDesc_trans : ∀ x y z : MatchResult,
    byScoreDesc x y = true → byScoreDesc y z = true → byScoreDesc x z = true := by
  intro x y z hxy hyz
  unfold byScoreDesc at *
  exact decide_eq_true (le_trans (of_decide_eq_true hyz) (of_decide_eq_true hxy))

lemma byScoreDesc_total : ∀ x y : MatchResult,
    (byScoreDesc x y || byScoreDesc y x) = true := by
  intro x y
  unfold byScoreDesc
  rcases le_total y.compatibility_score x.compatibility_score with h | h
  · rw [decide_eq_true h]
    rfl
  · rw [decide_eq_true h]
    simp

lemma rankAll_perm (u : Profile) (others : List OtherUser) (prox : ℤ → Option ℤ) :
    (others.map (scoreCandidate u prox)).Perm (rankAll u others prox) :=
  (List.mergeSort_perm _ _).symm

lemma rankAll_sorted (u : Profile) (others : List OtherUser) (prox : ℤ → Option ℤ) :
    List.Pairwise (fun x y => y.compatibility_score ≤ x.compatibility_score)
      (rankAll u others prox) := by
  have h := List.sorted_mergeSort byScoreDesc_trans byScoreDesc_total
    (others.map (scoreCandidate u prox))
  exact h.imp (fun hab => of_decide_eq_true hab)

lemma rankAll_length (u : Profile) (others : List OtherUser) (prox : ℤ → Option ℤ) :
    (rankAll u others prox).length = others.length := by
  rw [← (rankAll_perm u others prox).length_eq, List.length_map]

/-- C3: `find_matches_for_event` scores every candidate (the ranked list is a
permutation of the scored candidates), sorts descending by compatibility
score, and returns the first `top_n` entries; every kept entry scores at
least as high as every dropped entry; an empty candidate list yields an empty
result; and a `top_n` of at least the candidate count returns the whole
scored, sorted list with no padding. -/
theorem claim_C3 : ∀ u others prox (n k : ℕ),
    (others.map (scoreCandidate u prox)).Perm (rankAll u others prox)
    ∧ List.Pairwise (fun x y => y.compatibility_score ≤ x.compatibility_score)
        (rankAll u others prox)
    ∧ find_matches_for_event u others prox (n : ℤ) = (rankAll u others prox).take n
    ∧ (∀ x ∈ find_matches_for_event u others prox (n : ℤ),
        ∀ y ∈ (rankAll u others prox).drop n, y.compatibility_score ≤ x.compatibility_score)
    ∧ find_matches_for_event u ([] : List OtherUser) prox (n : ℤ) = []
    ∧ find_matches_for_event u others prox ((others.length + k : ℕ) : ℤ) =
        rankAll u others prox := by
  intro u others prox n k
  have htake : ∀ m : ℕ, find_matches_for_event u others prox (m : ℤ) =
      (rankAll u others prox).take m := by
    intro m
    unfold find_matches_for_event pySlice
    rw [if_pos (by positivity), Int.toNat_natCast]
  refine ⟨rankAll_perm u others prox, rankAll_sorted u others prox, htake n, ?_, ?_, ?_⟩
  · intro x hx y hy
    have hs := rankAll_sorted u others prox
    rw [← List.take_append_drop n (rankAll u others prox)] at hs
    obtain ⟨-, -, hcross⟩ := List.pairwise_append.mp hs
    rw [htake n] at hx
    exact hcross x hx y hy
  · unfold find_matches_for_event rankAll pySlice
    simp
  · have hlen : (rankAll u others prox).length ≤ others.length + k := by
      rw [rankAll_length]
      omega
    rw [htake (others.length + k), List.take_of_length_le hlen]

/-- C3 witness: the truncation equation of `claim_C3` instantiated at a
concrete requester, two candidates and `top_n = 1`. -/
theorem claim_C3_witness :
    find_matches_for_event ⟨fun _ => some 70, none⟩
      [⟨1, none, "w1", fun _ => some 0, none⟩, ⟨2, some "bob", "w2", fun _ => some 70, none⟩]
      (fun _ => none) (1 : ℤ) =
    (rankAll ⟨fun _ => some 70, none⟩
      [⟨1, none, "w1", fun _ => some 0, none⟩, ⟨2, some "bob", "w2", fun _ => some 70, none⟩]
      (fun _ => none)).take 1 :=
  (claim_C3 ⟨fun _ => some 70, none⟩
    [⟨1, none, "w1", fun _ => some 0, none⟩, ⟨2, some "bob", "w2", fun _ => some 70, none⟩]
    (fun _ => none) 1 0).2.2.1

/-- C5 counterexample: called with the invalid `top_n = 0`, the ranker does
not fail with any error — it returns a normal value (the empty list), because
the source slices `matches[:top_n]` with no validation of `top_n`. -/
theorem claim_C5_counterexample :
    find_matches_for_event ⟨fun _ => some 70, none⟩
      [⟨1, none, "w", fun _ => some 70, none⟩] (fun _ => none) 0 = [] := by
  unfold find_matches_for_event pySlice
  simp

/-- C5 amended: `find_matches_for_event` performs no validation of `top_n`:
`top_n = 0` returns the empty list, and a negative `top_n` returns the
scored, sorted candidate list with its last `|top_n|` (lowest-scored) entries
dropped, following Python slice semantics; no error is raised in either
case. -/
theorem claim_C5_amended : ∀ u others prox (k : ℕ),
    find_matches_for_event u others prox 0 = []
    ∧ find_matches_for_event u others prox (-((k : ℤ) + 1)) =
        (rankAll u others prox).take (others.length - (k + 1)) := by
  intro u others prox k
  constructor
  · unfold find_matches_for_event pySlice
    simp
  · unfold find_matches_for_event pySlice
    rw [if_neg (by omega), rankAll_length]
    have hk : (- -((k : ℤ) + 1)).toNat = k + 1 := by omega
    rw [hk]

end MatchingEngine

namespace MatchingEngine

/-! Branch lemmas for the proximity calculator. -/

lemma overlap_no_time {dist : ℚ → ℚ → ℚ → ℚ → ℚ} {a b : Checkin} {m now : ℚ}
    (ht : min (effectiveEnd a now) (effectiveEnd b now) ≤ max a.check_in_time b.check_in_time) :
    calculate_proximity_overlap dist a b m now = 0 := by
  unfold calculate_proximity_overlap
  dsimp only
  rw [if_pos ht]

lemma overlap_gate_true {dist : ℚ → ℚ → ℚ → ℚ → ℚ} {a b : Checkin} {m now : ℚ}
    (h : (pyTruthy a.latitude && pyTruthy a.longitude &&
      pyTruthy b.latitude && pyTruthy b.longitude) = true)
    (ht : max a.check_in_time b.check_in_time < min (effectiveEnd a now) (effectiveEnd b now)) :
    calculate_proximity_overlap dist a b m now =
      if m < dist (a.latitude.getD 0) (a.longitude.getD 0) (b.latitude.getD 0) (b.longitude.getD 0)
      then 0
      else pyInt ((min (effectiveEnd a now) (effectiveEnd b now) -
        max a.check_in_time b.check_in_time) / 60) := by
  unfold calculate_proximity_overlap
  dsimp only
  rw [if_neg (not_le.mpr ht), if_pos h]

lemma overlap_gate_false {dist : ℚ → ℚ → ℚ → ℚ → ℚ} {a b : Checkin} {m now : ℚ}
    (h : (pyTruthy a.latitude && pyTruthy a.longitude &&
      pyTruthy b.latitude && pyTruthy b.longitude) = false)
    (ht : max a.check_in_time b.check_in_time < min (effectiveEnd a now) (effectiveEnd b now)) :
    calculate_proximity_overlap dist a b m now =
      pyInt ((min (effectiveEnd a now) (effectiveEnd b now) -
        max a.check_in_time b.check_in_time) / 60) := by
  unfold calculate_proximity_overlap
  dsimp only
  rw [if_neg (not_le.mpr ht)]
  simp only [h, Bool.false_eq_true, if_false]

/-- C7: the proximity calculator returns 0, without any failure path, whenever
the interval intersection is empty or degenerate (the later check-in start is
at or past the earlier effective end), and in particular whenever either
check-in is malformed with its effective end before its own start. -/
theorem claim_C7 : ∀ (dist : ℚ → ℚ → ℚ → ℚ → ℚ) (a b : Checkin) (m now : ℚ),
    (min (effectiveEnd a now) (effectiveEnd b now) ≤ max a.check_in_time b.check_in_time →
      calculate_proximity_overlap dist a b m now = 0)
    ∧ (effectiveEnd a now < a.check_in_time → calculate_proximity_overlap dist a b m now = 0)
    ∧ (effectiveEnd b now < b.check_in_time → calculate_proximity_overlap dist a b m now = 0) := by
  intro dist a b m now
  refine ⟨fun h => overlap_no_time h, fun h => overlap_no_time ?_, fun h => overlap_no_time ?_⟩
  · exact le_trans (le_trans (min_le_left _ _) (le_of_lt h)) (le_max_left _ _)
  · exact le_trans (le_trans (min_le_right _ _) (le_of_lt h)) (le_max_right _ _)

/-- C7 witness: `claim_C7` applied to three concrete check-in pairs — one with
a malformed first interval, one with disjoint intervals, one with a malformed
second interval — each yielding 0. -/
theorem claim_C7_witness :
    calculate_proximity_overlap (fun _ _ _ _ => 0) ⟨100, some 50, none, none⟩
      ⟨0, some 200, none, none⟩ 50 0 = 0
    ∧ calculate_proximity_overlap (fun _ _ _ _ => 0) ⟨0, some 100, none, none⟩
      ⟨200, some 300, none, none⟩ 50 0 = 0
    ∧ calculate_proximity_overlap (fun _ _ _ _ => 0) ⟨0, some 300, none, none⟩
      ⟨200, some 100, none, none⟩ 50 0 = 0 :=
  ⟨(claim_C7 (fun _ _ _ _ => 0) ⟨100, some 50, none, none⟩ ⟨0, some 200, none, none⟩ 50 0).2.1
      (by norm_num [effectiveEnd]),
   (claim_C7 (fun _ _ _ _ => 0) ⟨0, some 100, none, none⟩ ⟨200, some 300, none, none⟩ 50 0).1
      (by norm_num [effectiveEnd]),
   (claim_C7 (fun _ _ _ _ => 0) ⟨0, some 300, none, none⟩ ⟨200, some 100, none, none⟩ 50 0).2.2
      (by norm_num [effectiveEnd])⟩

/-- C8 counterexample: two check-ins that both carry GPS coordinates
(`latitude`/`longitude` keys present on both sides), the distance between
them (111,195 m, the true haversine distance from 0°N 0°E to 0°N 1°E) exceeds
`max_distance_meters = 50`, yet the calculator returns the 30-minute temporal
overlap instead of the 0 the claim requires: a latitude or longitude equal to
0.0 is falsy in Python, so the distance gate is skipped. -/
theorem claim_C8_counterexample :
    (Checkin.mk 0 (some 1800) (some 0) (some 0)).latitude.isSome = true
    ∧ (Checkin.mk 0 (some 1800) (some 0) (some 0)).longitude.isSome = true
    ∧ (Checkin.mk 0 (some 1800) (some 0) (some 1)).latitude.isSome = true
    ∧ (Checkin.mk 0 (some 1800) (some 0) (some 1)).longitude.isSome = true
    ∧ (50 : ℚ) < 111195
    ∧ calculate_proximity_overlap (fun _ _ _ _ => 111195)
        (Checkin.mk 0 (some 1800) (some 0) (some 0))
        (Checkin.mk 0 (some 1800) (some 0) (some 1)) 50 0 = 30 := by
  refine ⟨rfl, rfl, rfl, rfl, by norm_num, ?_⟩
  have hg : (pyTruthy (Checkin.mk 0 (some 1800) (some 0) (some 0)).latitude &&
      pyTruthy (Checkin.mk 0 (some 1800) (some 0) (some 0)).longitude &&
      pyTruthy (Checkin.mk 0 (some 1800) (some 0) (some 1)).latitude &&
      pyTruthy (Checkin.mk 0 (some 1800) (some 0) (some 1)).longitude) = false := by
    simp [pyTruthy]
  rw [overlap_gate_false hg (by norm_num [effectiveEnd])]
  norm_num [pyInt, effectiveEnd]

/-- C8 amended: for check-ins whose four coordinates are all present AND
nonzero (Python-truthy, the condition the source actually tests), a distance
value above `max_distance_meters` forces a 0 result regardless of temporal
overlap, a distance within the bound returns the temporal overlap in whole
minutes by truncation, and no temporal overlap returns 0; the distance
function parameter stands for the haversine formula of the source. -/
theorem claim_C8_amended : ∀ (dist : ℚ → ℚ → ℚ → ℚ → ℚ) (a b : Checkin) (m now : ℚ),
    pyTruthy a.latitude = true → pyTruthy a.longitude = true →
    pyTruthy b.latitude = true → pyTruthy b.longitude = true →
    (m < dist (a.latitude.getD 0) (a.longitude.getD 0) (b.latitude.getD 0) (b.longitude.getD 0) →
      calculate_proximity_overlap dist a b m now = 0)
    ∧ (¬ m < dist (a.latitude.getD 0) (a.longitude.getD 0)
          (b.latitude.getD 0) (b.longitude.getD 0) →
        max a.check_in_time b.check_in_time < min (effectiveEnd a now) (effectiveEnd b now) →
        calculate_proximity_overlap dist a b m now =
          pyInt ((min (effectiveEnd a now) (effectiveEnd b now) -
            max a.check_in_time b.check_in_time) / 60))
    ∧ (min (effectiveEnd a now) (effectiveEnd b now) ≤ max a.check_in_time b.check_in_time →
        calculate_proximity_overlap dist a b m now = 0) := by
  intro dist a b m now hla hlo hlb hlob
  have hg : (pyTruthy a.latitude && pyTruthy a.longitude &&
      pyTruthy b.latitude && pyTruthy b.longitude) = true := by
    rw [hla, hlo, hlb, hlob]
    rfl
  refine ⟨?_, ?_, fun ht => overlap_no_time ht⟩
  · intro hd
    by_cases ht : min (effectiveEnd a now) (effectiveEnd b now) ≤
        max a.check_in_time b.check_in_time
    · exact overlap_no_time ht
    · rw [overlap_gate_true hg (lt_of_not_le ht), if_pos hd]
  · intro hd ht
    rw [overlap_gate_true hg ht, if_neg hd]

/-- C8 witness: `claim_C8_amended` applied to concrete nonzero-coordinate
check-ins — a distance of 100 m (above the 50 m bound) forces 0 despite a
30-minute overlap, and a distance of 10 m returns the 45.5-minute overlap
truncated (not rounded) to 45. -/
theorem claim_C8_amended_witness :
    calculate_proximity_overlap (fun _ _ _ _ => 100) ⟨0, some 1800, some 40, some 1⟩
      ⟨0, some 1800, some 41, some 2⟩ 50 0 = 0
    ∧ calculate_proximity_overlap (fun _ _ _ _ => 10) ⟨0, some 2730, some 40, some 1⟩
      ⟨0, some 3000, some 41, some 2⟩ 50 0 = 45 := by
  constructor
  · exact (claim_C8_amended (fun _ _ _ _ => 100) ⟨0, some 1800, some 40, some 1⟩
      ⟨0, some 1800, some 41, some 2⟩ 50 0 (by norm_num [pyTruthy]) (by norm_num [pyTruthy])
      (by norm_num [pyTruthy]) (by norm_num [pyTruthy])).1 (by norm_num)
  · exact ((claim_C8_amended (fun _ _ _ _ => 10) ⟨0, some 2730, some 40, some 1⟩
      ⟨0, some 3000, some 41, some 2⟩ 50 0 (by norm_num [pyTruthy]) (by norm_num [pyTruthy])
      (by norm_num [pyTruthy]) (by norm_num [pyTruthy])).2.1 (by norm_num)
      (by norm_num [effectiveEnd])).trans (by norm_num [pyInt, effectiveEnd, min_def, max_def])

/-- C10: whenever any of the four coordinates is absent or exactly 0.0
(falsy to Python), the GPS distance gate is skipped entirely, so two
temporally overlapping check-ins yield the full time-overlap minutes whatever
the distance function would report — even a value far above
`max_distance_meters`. -/
theorem claim_C10 : ∀ (dist : ℚ → ℚ → ℚ → ℚ → ℚ) (a b : Checkin) (m now : ℚ),
    (coordMissingOrZero a.latitude ∨ coordMissingOrZero a.longitude ∨
      coordMissingOrZero b.latitude ∨ coordMissingOrZero b.longitude) →
    max a.check_in_time b.check_in_time < min (effectiveEnd a now) (effectiveEnd b now) →
    calculate_proximity_overlap dist a b m now =
      pyInt ((min (effectiveEnd a now) (effectiveEnd b now) -
        max a.check_in_time b.check_in_time) / 60) := by
  intro dist a b m now hc ht
  have hg : (pyTruthy a.latitude && pyTruthy a.longitude &&
      pyTruthy b.latitude && pyTruthy b.longitude) = false := by
    rcases hc with h | h | h | h <;> rcases h with h | h <;> simp [pyTruthy, h]
  exact overlap_gate_false hg ht

/-- C10 witness: a check-in on the equator (latitude 0.0) with a 30-minute
overlap against a check-in 1,000,000 m away by the supplied distance function
still yields the full 30 minutes. -/
theorem claim_C10_witness :
    calculate_proximity_overlap (fun _ _ _ _ => 1000000) ⟨0, some 1800, some 0, some 10⟩
      ⟨0, some 1800, some 20, some 30⟩ 50 0 = 30 := by
  refine (claim_C10 (fun _ _ _ _ => 1000000) ⟨0, some 1800, some 0, some 10⟩
    ⟨0, some 1800, some 20, some 30⟩ 50 0 (Or.inl (Or.inr rfl))
    (by norm_num [effectiveEnd])).trans ?_
  norm_num [pyInt, effectiveEnd, min_def, max_def]

end MatchingEngine

namespace MatchingEngine

/-! Bounds on the scoring components, used for the proximity-monotonicity
claim. -/

lemma getDim_bounds {p : Profile} (h : ValidProfile p) (k : String) :
    0 ≤ getDim p k ∧ getDim p k ≤ 100 := by
  unfold getDim
  cases hk : p.dimensions k with
  | none => norm_num
  | some v => simpa using h k v hk

lemma similarity_bounds {a b : Profile} (ha : ValidProfile a) (hb : ValidProfile b) (k : String) :
    0 ≤ similarity a b k ∧ similarity a b k ≤ 100 := by
  obtain ⟨h1, h2⟩ := getDim_bounds ha k
  obtain ⟨h3, h4⟩ := getDim_bounds hb k
  unfold similarity
  have habs : |getDim a k - getDim b k| ≤ 100 := abs_le.mpr ⟨by linarith, by linarith⟩
  have h0 : 0 ≤ |getDim a k - getDim b k| := abs_nonneg _
  constructor <;> linarith

lemma total_weighted_score_bounds {a b : Profile} (ha : ValidProfile a) (hb : ValidProfile b) :
    0 ≤ total_weighted_score a b ∧ total_weighted_score a b ≤ 100 := by
  obtain ⟨g1, g2⟩ := similarity_bounds ha hb "goals"
  obtain ⟨i1, i2⟩ := similarity_bounds ha hb "intuition"
  obtain ⟨p1, p2⟩ := similarity_bounds ha hb "philosophy"
  obtain ⟨e1, e2⟩ := similarity_bounds ha hb "expectations"
  obtain ⟨l1, l2⟩ := similarity_bounds ha hb "leisure_time"
  unfold total_weighted_score DIMENSION_WEIGHTS
  simp only [List.map_cons, List.map_nil, List.sum_cons, List.sum_nil]
  constructor <;> linarith

lemma intention_overlap_bounds (a b : Profile) :
    0 ≤ intention_overlap a b ∧ intention_overlap a b ≤ 1 := by
  unfold intention_overlap
  split_ifs with h
  · obtain ⟨h1, h2⟩ := h
    have hne : (getIntentions a ∪ getIntentions b).Nonempty :=
      ((Finset.nonempty_iff_ne_empty).mpr h1).mono Finset.subset_union_left
    have hpos : 0 < ((getIntentions a ∪ getIntentions b).card : ℚ) := by
      exact_mod_cast Finset.card_pos.mpr hne
    constructor
    · positivity
    · rw [div_le_one hpos]
      exact_mod_cast Finset.card_le_card Finset.inter_subset_union
  · norm_num

lemma intention_multiplier_bounds (a b : Profile) :
    8/10 ≤ intention_multiplier a b ∧ intention_multiplier a b ≤ 12/10 := by
  obtain ⟨h1, h2⟩ := intention_overlap_bounds a b
  unfold intention_multiplier
  constructor <;> linarith

lemma proximity_bonus_eq {p : ℤ} (h60 : p ≤ 60) : proximity_bonus p = (p : ℚ) / 3 := by
  unfold proximity_bonus
  rw [min_eq_right]
  have : (p : ℚ) ≤ 60 := by exact_mod_cast h60
  linarith

lemma proximity_bonus_sat {p : ℤ} (h : 60 ≤ p) : proximity_bonus p = 20 := by
  unfold proximity_bonus
  rw [min_eq_left]
  have : (60 : ℚ) ≤ (p : ℚ) := by exact_mod_cast h
  linarith

lemma score_eq (a b : Profile) (p : ℤ) :
    (calculate_compatibility a b p).1 =
      round1 (min 100 (max 0 (total_weighted_score a b * intention_multiplier a b +
        proximity_bonus p))) := rfl

/-- C9: with both profiles fixed (and their explicit dimension values in the
documented `[0, 100]` range), the score is non-decreasing in
`proximity_minutes` on `[0, 60]`, strictly increasing there unless the score
has reached the 100 ceiling, and constant for every `proximity_minutes` of 60
or more, where the bonus is saturated at 20 points. -/
theorem claim_C9 : ∀ a b : Profile, ValidProfile a → ValidProfile b →
    (∀ p q : ℤ, 0 ≤ p → p ≤ q → q ≤ 60 →
      (calculate_compatibility a b p).1 ≤ (calculate_compatibility a b q).1)
    ∧ (∀ p q : ℤ, 0 ≤ p → p < q → q ≤ 60 →
      (calculate_compatibility a b p).1 < (calculate_compatibility a b q).1
      ∨ (calculate_compatibility a b q).1 = 100)
    ∧ (∀ p : ℤ, 60 ≤ p →
      (calculate_compatibility a b p).1 = (calculate_compatibility a b 60).1) := by
  intro a b ha hb
  obtain ⟨hW0, hW1⟩ := total_weighted_score_bounds ha hb
  obtain ⟨hM0, hM1⟩ := intention_multiplier_bounds a b
  have hX0 : 0 ≤ total_weighted_score a b * intention_multiplier a b :=
    mul_nonneg hW0 (by linarith)
  have strict : ∀ p q : ℤ, 0 ≤ p → p < q → q ≤ 60 →
      (calculate_compatibility a b p).1 < (calculate_compatibility a b q).1
      ∨ (calculate_compatibility a b q).1 = 100 := by
    intro p q hp hpq hq60
    have hq0 : (0 : ℤ) ≤ q := by omega
    have hbp := proximity_bonus_eq (show p ≤ 60 by omega)
    have hbq := proximity_bonus_eq hq60
    have hp1 : (p : ℚ) + 1 ≤ (q : ℚ) := by exact_mod_cast hpq
    have hpc : (0 : ℚ) ≤ (p : ℚ) := by exact_mod_cast hp
    have hqc : (0 : ℚ) ≤ (q : ℚ) := by exact_mod_cast hq0
    rw [score_eq, score_eq, hbp, hbq]
    by_cases hceil :
        100 ≤ total_weighted_score a b * intention_multiplier a b + (q : ℚ) / 3
    · right
      rw [max_eq_right (by linarith), min_eq_left hceil]
      have h100 := round1_int 100
      simpa using h100
    · left
      have hq100 : total_weighted_score a b * intention_multiplier a b + (q : ℚ) / 3 < 100 :=
        lt_of_not_le hceil
      have hp100 : total_weighted_score a b * intention_multiplier a b + (p : ℚ) / 3 < 100 := by
        linarith
      rw [max_eq_right (by linarith), max_eq_right (by linarith),
        min_eq_right (le_of_lt hp100), min_eq_right (le_of_lt hq100)]
      obtain ⟨hc1, hc2⟩ :=
        round1_close (total_weighted_score a b * intention_multiplier a b + (p : ℚ) / 3)
      obtain ⟨hc3, hc4⟩ :=
        round1_close (total_weighted_score a b * intention_multiplier a b + (q : ℚ) / 3)
      linarith
  refine ⟨?_, strict, ?_⟩
  · intro p q hp hpq hq
    rcases eq_or_lt_of_le hpq with rfl | hlt
    · exact le_refl _
    · rcases strict p q hp hlt hq with h | h
      · exact le_of_lt h
      · rw [h, score_eq]
        exact round1_le_100 (min_le_left _ _)
  · intro p hp
    rw [score_eq, score_eq, proximity_bonus_sat hp, proximity_bonus_sat (le_refl 60)]

/-- C9 witness: `claim_C9` applied to two concrete valid profiles —
strict-increase-or-ceiling between 0 and 30 minutes, and equality between 90
and 60 minutes. -/
theorem claim_C9_witness :
    ((calculate_compatibility ⟨fun _ => some 70, none⟩ ⟨fun _ => some 30, none⟩ 0).1 <
      (calculate_compatibility ⟨fun _ => some 70, none⟩ ⟨fun _ => some 30, none⟩ 30).1
      ∨ (calculate_compatibility ⟨fun _ => some 70, none⟩ ⟨fun _ => some 30, none⟩ 30).1 = 100)
    ∧ (calculate_compatibility ⟨fun _ => some 70, none⟩ ⟨fun _ => some 30, none⟩ 90).1 =
        (calculate_compatibility ⟨fun _ => some 70, none⟩ ⟨fun _ => some 30, none⟩ 60).1 := by
  have ha : ValidProfile ⟨fun _ => some 70, none⟩ := by
    intro k v h
    cases h
    norm_num
  have hb : ValidProfile ⟨fun _ => some 30, none⟩ := by
    intro k v h
    cases h
    norm_num
  exact ⟨(claim_C9 ⟨fun _ => some 70, none⟩ ⟨fun _ => some 30, none⟩ ha hb).2.1 0 30
      (by norm_num) (by norm_num) (by norm_num),
    (claim_C9 ⟨fun _ => some 70, none⟩ ⟨fun _ => some 30, none⟩ ha hb).2.2 90 (by norm_num)⟩

end MatchingEngine
